import Mathlib

/-!
Verification of the `axctl` shell-bootstrap session against its source.

Shallow embedding of the relevant modules:
* `Axctl.Tar`       — `src/tar.rs` (archive builder, modelled at the level of
  the sequence of tar entries written, with the header checksum computed over
  an explicit header serialization; the gzip framing is abstracted away).
* `Axctl.MutualTls` — `src/mutual_tls.rs` (certificate material; RSA key
  generation and the ambient clock are passed explicitly; PEM serialization is
  modelled as a concrete injective encoding of the certificate fields).
* `Axctl.StartPackage` / `Axctl.EndPackage` — `src/cli/shell/start_package.rs`
  and `src/cli/shell/end_package.rs` (payload archives; the shell script
  contents are the literal format strings of the source).
* `Axctl.Shell`     — `src/cli/shell.rs` (the session orchestrator
  `Shell::invoke`, modelled as a function of an environment oracle recording
  the outcome of every external effect, returning the session result together
  with the trace of effects performed).
-/

namespace Axctl

/-- Byte view of an ASCII string (`String::into_bytes` / `as_bytes` for the
ASCII content this program produces). -/
def strBytes (s : String) : List Nat :=
  s.data.map Char.toNat

namespace Tar

/-- `tar::File` from `src/tar.rs`: path, contents, POSIX mode. -/
structure File where
  path : String
  bytes : List Nat
  mode : Nat
deriving DecidableEq, Repr

/-- `tar::EntryType`; `build` only ever sets `Regular`. -/
inductive EntryType
| regular
| directory
| other
deriving DecidableEq, Repr

/-- One tar entry as written by `build`: the GNU header fields the source
sets (`set_path`, `set_mode`, `set_uid`, `set_gid`, `set_mtime`, `set_size`,
`set_entry_type`, `set_cksum`) together with the appended file contents. -/
structure Entry where
  path : String
  mode : Nat
  uid : Nat
  gid : Nat
  mtime : Nat
  size : Nat
  typ : EntryType
  cksum : Nat
  bytes : List Nat
deriving DecidableEq, Repr

/-- A numeric tar header field: `width` octal digits (zero padded) followed
by a NUL byte. -/
def octField (width n : Nat) : List Nat :=
  let ds := (Nat.toDigits 8 n).map Char.toNat
  List.replicate (width - ds.length) 48 ++ ds ++ [0]

/-- The 100-byte name field: the path bytes padded with NULs. -/
def nameField (p : String) : List Nat :=
  strBytes p ++ List.replicate (100 - (strBytes p).length) 0

/-- The type-flag byte: `'0'` for a regular file, `'5'` for a directory. -/
def typeFlagByte : EntryType → Nat
| .regular => 48
| .directory => 53
| .other => 0

/-- The 512 header bytes as summed by `Header::set_cksum`: every field of the
header with the checksum field itself taken as eight ASCII spaces. -/
def cksumSeedBytes (e : Entry) : List Nat :=
  nameField e.path ++ octField 7 e.mode ++ octField 7 e.uid ++ octField 7 e.gid
    ++ octField 11 e.size ++ octField 11 e.mtime
    ++ List.replicate 8 32
    ++ [typeFlagByte e.typ]
    ++ List.replicate 100 0
    ++ strBytes "ustar  " ++ [0]
    ++ List.replicate 297 0

/-- The header checksum: the byte sum of the header with the checksum field
blanked to spaces. -/
def cksumOf (e : Entry) : Nat :=
  (cksumSeedBytes e).sum

/-- One loop iteration of `build`: a fresh GNU header with the file's path and
mode, `uid = 0`, `gid = 0`, the clock reading (`0` when the clock is before
the Unix epoch), the content length, entry type `Regular`, and the checksum
set by `set_cksum`; then the contents are appended. `now` is the
`SystemTime::now().duration_since(UNIX_EPOCH).ok().map(as_secs)` reading,
`none` when the clock is before the epoch. -/
def mkEntry (now : Option Nat) (f : File) : Entry :=
  let base : Entry :=
    { path := f.path
      mode := f.mode
      uid := 0
      gid := 0
      mtime := now.getD 0
      size := f.bytes.length
      typ := .regular
      cksum := 0
      bytes := f.bytes }
  { base with cksum := cksumOf base }

/-- `tar::build` from `src/tar.rs`: write one entry per input file, in input
order. The clock is sampled inside the loop in the source; it is modelled as
one ambient reading `now` shared by all entries. -/
def build (now : Option Nat) (files : List File) : List Entry :=
  files.map (mkEntry now)

/-- `tar::file_with_mode`. -/
def file_with_mode (path : String) (bytes : List Nat) (mode : Nat) : File :=
  { path := path, bytes := bytes, mode := mode }

/-- `tar::file`: mode 0o644. -/
def file (path : String) (bytes : List Nat) : File :=
  file_with_mode path bytes 0o644

/-- `tar::executable`: mode 0o755. -/
def executable (path : String) (bytes : List Nat) : File :=
  file_with_mode path bytes 0o755

end Tar

namespace MutualTls

/-- Signature digest used by `src/mutual_tls.rs`; always SHA-1. -/
inductive Digest
| sha1
| sha256
deriving DecidableEq, Repr

/-- `openssl::rsa::Rsa<Private>`: the key material itself is opaque; a key is
identified by the draw it took from the RNG. `new_rsa_key` in the source calls
`Rsa::generate(2048)`; the generated key is modelled as the RNG draw. -/
structure Rsa where
  keyId : Nat
  bits : Nat
deriving DecidableEq, Repr

/-- `new_rsa_key()` from `src/mutual_tls.rs`: a fresh RSA-2048 key, the RNG
draw passed explicitly. -/
def new_rsa_key (draw : Nat) : Rsa :=
  { keyId := draw, bits := 2048 }

/-- An `openssl::x509::X509` certificate at the level of the attributes
`src/mutual_tls.rs` sets: public key, subject and issuer common names,
validity window, and the key and digest it was signed with. -/
structure X509 where
  pubkey : Rsa
  subjectCN : String
  issuerCN : String
  notBefore : Int
  notAfter : Int
  signerKey : Rsa
  digest : Digest
deriving DecidableEq, Repr

/-- `X509::to_pem`: the PEM serialization is opaque OpenSSL output; it is
modelled as a concrete injective byte encoding of the certificate fields. -/
def X509.to_pem (c : X509) : List Nat :=
  strBytes c.subjectCN ++ [0] ++ strBytes c.issuerCN ++ [0]
    ++ [c.pubkey.keyId, c.pubkey.bits, c.signerKey.keyId]
    ++ [c.notBefore.natAbs, c.notAfter.natAbs]

/-- `Rsa::private_key_to_pem`: likewise an opaque serialization, modelled as
an injective byte encoding of the key. -/
def Rsa.private_key_to_pem (k : Rsa) : List Nat :=
  [1, k.keyId, k.bits]

/-- `mutual_tls::Endpoint`. -/
structure Endpoint where
  key : Rsa
  certificate : X509
  peer_certificate_authority : X509
deriving DecidableEq, Repr

/-- `mutual_tls::CA` (internal). -/
structure CA where
  key : Rsa
  certificate : X509
  name : String
  not_before : Int
  not_after : Int
deriving DecidableEq, Repr

/-- `CA::new` from `src/mutual_tls.rs`: generate a key, self-sign a CA
certificate with CN `common_name`, validity `[now - 30 days, now + 30 days]`,
signed with the CA's own key and SHA-1. `now` is the ambient
`SystemTime::now()` reading in whole seconds since the Unix epoch, and `draw`
the RNG draw for `new_rsa_key`. -/
def CA.new (common_name : String) (now : Nat) (draw : Nat) : CA :=
  let key := new_rsa_key draw
  let not_before : Int := (now : Int) - 30 * 86400
  let not_after : Int := (now : Int) + 30 * 86400
  { key := key
    certificate :=
      { pubkey := key
        subjectCN := common_name
        issuerCN := common_name
        notBefore := not_before
        notAfter := not_after
        signerKey := key
        digest := .sha1 }
    name := common_name
    not_before := not_before
    not_after := not_after }

/-- `CA::new_client` from `src/mutual_tls.rs`: generate a key and issue a
leaf certificate with CN `common_name`, the CA's validity window, the CA's
name as issuer, signed with the CA's key and SHA-1. Returns the key and the
certificate. -/
def CA.new_client (ca : CA) (common_name : String) (draw : Nat) : Rsa × X509 :=
  let key := new_rsa_key draw
  (key,
    { pubkey := key
      subjectCN := common_name
      issuerCN := ca.name
      notBefore := ca.not_before
      notAfter := ca.not_after
      signerKey := ca.key
      digest := .sha1 })

/-- `mutual_tls::Pair`. -/
structure Pair where
  server : Endpoint
  client : Endpoint
deriving DecidableEq, Repr

/-- `Pair::new` from `src/mutual_tls.rs`. The two `SystemTime::now()` calls
(one per `CA::new`) and the four RNG draws (one per generated key, in call
order: server CA, client CA, server leaf, client leaf) are passed explicitly. -/
def Pair.new (name : String) (now₁ now₂ : Nat) (d₁ d₂ d₃ d₄ : Nat) : Pair :=
  let server_ca := CA.new (name ++ " server CA") now₁ d₁
  let client_ca := CA.new (name ++ " client CA") now₂ d₂
  let server_leaf := server_ca.new_client (name ++ " server") d₃
  let client_leaf := client_ca.new_client (name ++ " client") d₄
  { server :=
      { key := server_leaf.1
        certificate := server_leaf.2
        peer_certificate_authority := client_ca.certificate }
    client :=
      { key := client_leaf.1
        certificate := client_leaf.2
        peer_certificate_authority := server_ca.certificate } }

end MutualTls

/-- The logger invocation fragment `logger -t 'trunnion shell <id>'` that the
start and end package scripts both embed (the source repeats this literal in
each `format!` template). -/
def logger_invocation (id : String) : String :=
  "logger -t 'trunnion shell " ++ id ++ "'"

/-- `cli::shell::start_package::StartPackage`. The session id is the
hyphenated display form of the `Uuid`. -/
structure StartPackage where
  id : String
  port : Nat
  server_pem : List Nat
  client_ca_pem : List Nat
deriving DecidableEq, Repr

namespace StartPackage

/-- `StartPackage::new` from `src/cli/shell/start_package.rs`: `server.pem`
is the server private key PEM chained with the server certificate PEM, and
`client_ca.pem` is the peer (client) CA certificate PEM. -/
def new (id : String) (port : Nat) (server : MutualTls.Endpoint) : StartPackage :=
  { id := id
    port := port
    server_pem := server.key.private_key_to_pem ++ server.certificate.to_pem
    client_ca_pem := server.peer_certificate_authority.to_pem }

/-- `StartPackage::run_sh_filename`. -/
def run_sh_filename (sp : StartPackage) : String :=
  "run." ++ sp.id ++ ".sh"

/-- `StartPackage::workdir`. -/
def workdir (sp : StartPackage) : String :=
  "/tmp/trunnion-shell." ++ sp.id

/-- The `format!` template of `StartPackage::package_dot_conf`, as a string. -/
def package_dot_conf_str (sp : StartPackage) : String :=
  "\necho 'starting' | " ++ logger_invocation sp.id
    ++ "\nrun=`find /tmp/ -name " ++ sp.run_sh_filename
    ++ " | head -n1`\nif [ -z \"$run\" ]\nthen\n    echo 'fatal: unable to identify unpack directory' | "
    ++ logger_invocation sp.id
    ++ "\nelse\n    (\n        exec $run </dev/null 2>&1 \n    ) &\n    echo \"$run is running as PID $!\" | "
    ++ logger_invocation sp.id
    ++ "\nfi\nsleep 3\n\nfalse\n"

/-- `StartPackage::package_dot_conf` (`.into_bytes()`). -/
def package_dot_conf (sp : StartPackage) : List Nat :=
  strBytes sp.package_dot_conf_str

/-- The `format!` template of `StartPackage::run_sh`, as a string; the
placeholders are the session id, the working directory and the port. -/
def run_sh_str (sp : StartPackage) : String :=
  "#!/bin/sh\n# trunnion shell invocation\nid=" ++ sp.id ++ "\n"
    ++ ("workdir=" ++ sp.workdir)
    ++ "\nssl_port=" ++ toString sp.port
    ++ "\n\ncd `dirname $0`\n\nmkdir $workdir\nmv server.pem client_ca.pem stunnel.conf $workdir/\n\nexport HOME=/root\nexport PATH=$PATH:/usr/sbin\nexport PS1=`hostname`'# '\ncd\n\nif command -v stunnel >/dev/null\nthen\n  echo 'starting sh-over-SSL via `stunnel` on port '$ssl_port\n  stunnel $workdir/stunnel.conf\n\nelif command -v openssl >/dev/null 2>&1\nthen\n  echo 'starting sh-over-SSL via `openssl` on port '$ssl_port\n\n  mkfifo $workdir/c2s\n  sh -i <$workdir/c2s 2>&1 | \\\n      openssl s_server -quiet \\\n      -port $ssl_port \\\n      -cert $workdir/server.pem \\\n      -key $workdir/server.pem \\\n      -CAfile $workdir/client_ca.pem \\\n      -Verify 1 \\\n      -verify_return_error \\\n      >$workdir/c2s &\nelse\n  echo 'fatal: `stunnel` and `openssl` are not available'\nfi\n\nsleep 10\nrm -r $workdir\n\nfalse\n"

/-- `StartPackage::run_sh` (`.into_bytes()`). -/
def run_sh (sp : StartPackage) : List Nat :=
  strBytes sp.run_sh_str

/-- The `format!` template of `StartPackage::stunnel_config`, as a string. -/
def stunnel_config_str (sp : StartPackage) : String :=
  "\n[sh]\naccept   = " ++ toString sp.port
    ++ "\nexec     = /bin/sh\nexecArgs = sh -i\ncert     = " ++ sp.workdir
    ++ "/server.pem\nCAfile   = " ++ sp.workdir
    ++ "/client_ca.pem\nverifyChain = yes\n"

/-- `StartPackage::stunnel_config` (`.into_bytes()`). -/
def stunnel_config (sp : StartPackage) : List Nat :=
  strBytes sp.stunnel_config_str

/-- `StartPackage::into_eap` from `src/cli/shell/start_package.rs`: the five
archive files, in source order. `now` is the ambient clock reading consumed
by `tar::build`. -/
def into_eap (sp : StartPackage) (now : Option Nat) : List Tar.Entry :=
  Tar.build now
    [ Tar.file "package.conf" sp.package_dot_conf,
      Tar.executable sp.run_sh_filename sp.run_sh,
      Tar.file "stunnel.conf" sp.stunnel_config,
      Tar.file "server.pem" sp.server_pem,
      Tar.file "client_ca.pem" sp.client_ca_pem ]

end StartPackage

/-- `cli::shell::end_package::EndPackage`. -/
structure EndPackage where
  id : String
deriving DecidableEq, Repr

namespace EndPackage

/-- `EndPackage::new`. -/
def new (id : String) : EndPackage :=
  { id := id }

/-- `EndPackage::workdir`. -/
def workdir (ep : EndPackage) : String :=
  "/tmp/trunnion-shell." ++ ep.id

/-- The `format!` template of `EndPackage::package_dot_conf`, as a string. -/
def package_dot_conf_str (ep : EndPackage) : String :=
  "(\n    " ++ ("workdir=" ++ ep.workdir)
    ++ "\n    [ -f $workdir/openssl.pid ] && kill `cat $workdir/openssl.pid`\n    [ -f $workdir/stunnel.pid ] && kill `cat $workdir/stunnel.pid`\n    [ -d $workdir ] && rm -r $workdir\n    echo \"terminated\"\n) | "
    ++ logger_invocation ep.id
    ++ " &\n\nfalse\n"

/-- `EndPackage::package_dot_conf` (`.into_bytes()`). -/
def package_dot_conf (ep : EndPackage) : List Nat :=
  strBytes ep.package_dot_conf_str

/-- `EndPackage::into_eap` from `src/cli/shell/end_package.rs`: one archive
file, `package.conf`, mode 0o644. -/
def into_eap (ep : EndPackage) (now : Option Nat) : List Tar.Entry :=
  Tar.build now [Tar.file "package.conf" ep.package_dot_conf]

end EndPackage

/-- `std::io::ErrorKind`, restricted to the kinds `src/cli/shell.rs`
distinguishes; every other kind is `other`. -/
inductive IoErrorKind
| connectionRefused
| alreadyExists
| timedOut
| unexpectedEof
| other (code : Nat)
deriving DecidableEq, Repr

/-- `std::io::Error`: a kind and a message. -/
structure IoError where
  kind : IoErrorKind
  msg : String
deriving DecidableEq, Repr

/-- `std::net::SocketAddr`. -/
structure SockAddr where
  ip : Nat
  port : Nat
deriving DecidableEq, Repr

/-- `cli::shell::Error` from `src/cli/shell.rs`. `crossterm::ErrorKind` and
`vapix::Error<hyper::Error>` are opaque external error types, modelled as
strings. -/
inductive Error
| TerminalError (e : String)
| HostnameResolutionError (host : String) (e : IoError)
| ProbeError (addr : SockAddr) (e : IoError)
| DeviceNotSupported
| VapixError (e : String)
| ShellFailedToStart
| ShellConnectionError (e : IoError)
| TlsHandshakeFailed (detail : String)
| InputError (e : IoError)
| OutputError (e : IoError)
| ConnectionClosed (e : IoError)
deriving DecidableEq, Repr

/-- `ensure_closed` from `src/cli/shell.rs`, the 2-second pre-probe. The
input is what the raced `TcpStream::connect` did within the 2-second window:
`some r` when the connect completed first with result `r` (the biased select
polls the connect branch first), `none` when the timer fired first. The
connected stream itself is irrelevant and modelled as `Unit`. -/
def ensure_closed (connect : Option (Except IoError Unit)) : Except IoError Unit :=
  match connect with
  | some (.error e) =>
    if e.kind = .connectionRefused then .ok ()
    else .error e
  | some (.ok _) =>
    .error { kind := .alreadyExists, msg := "destination port is already open" }
  | none =>
    .error { kind := .timedOut, msg := "connection timed out (are you behind a firewall?)" }

/-- `choose_port` from `src/cli/shell.rs`:
`rand::thread_rng().gen_range(32768, 60999)` — a uniform draw from the
half-open range `[32768, 60999)`. The RNG output is the explicit `draw`. -/
def choose_port (draw : Nat) : Nat :=
  32768 + draw % (60999 - 32768)

/-- Outcome of the upload race in `Shell::invoke`: which branch of the biased
select resolved first. `dialOk`/`dialErr` are the dial loop resolving (with a
connection or a non-refused error, including its 20-second deadline);
`uploadSettled r` is the upload-then-wait-5-seconds branch resolving first,
carrying the upload's own result `r` (a vapix error modelled as a string). -/
inductive RaceOutcome
| dialOk
| dialErr (e : IoError)
| uploadSettled (r : Except String Unit)
deriving Repr

/-- Outcome of the byte-forwarding stage (`try_select` of the c2s and s2c
tasks): a clean end, or the error of whichever task failed first. -/
inductive FwdOutcome
| clean
| inputFailed (e : IoError)
| outputFailed (e : IoError)
| connClosed (e : IoError)
deriving DecidableEq, Repr

/-- The environment oracle for one `Shell::invoke` run: the outcome of every
external effect, in program order. -/
structure Env where
  rng : Nat
  resolveResult : Except IoError (List SockAddr)
  applicationsResult : Except String (Option Unit)
  outStartResult : Except String Unit
  probeConnect : Option (Except IoError Unit)
  raceOutcome : RaceOutcome
  outConnectedResult : Except String Unit
  tlsResult : Except String Unit
  outNegotiatedResult : Except String Unit
  fwdOutcome : FwdOutcome
  outCleaningUpResult : Except String Unit
  endUploadResult : Except String Unit
deriving Repr

/-- The observable effects `Shell::invoke` performs, in program order. -/
inductive Effect
| resolve
| vapixApplications
| outStart
| probe
| uploadStart
| dialStart
| outConnected
| tlsHandshake
| outNegotiated
| forward
| outCleaningUp
| uploadEnd
deriving DecidableEq, Repr

/-- How one `Shell::invoke` run ends: a process abort (`panic!` /
`Option::expect`), an `Err` return, or an `Ok` return. -/
inductive InvokeResult
| panics (msg : String)
| fails (e : Error)
| succeeds
deriving DecidableEq, Repr

/-- `http::uri::Uri`, restricted to the host component `Shell::invoke`
reads. -/
structure Uri where
  host : Option String
deriving DecidableEq, Repr

/-- `cli::shell::Shell`: the parsed arguments. -/
structure Shell where
  camera_url : Uri
  port : Option Nat
deriving DecidableEq, Repr

/-- `Shell::invoke` from `src/cli/shell.rs`, as a function of the environment
oracle, returning the run's result and the trace of effects performed.
Straight-line translation of the source: id/certificates/port first, then the
host lookup (a panic when absent), resolution (an error on resolver failure, a
panic on zero addresses, the first address otherwise), the vapix
`applications()` call, the Start message, the pre-probe, the upload race
(whose settled-upload branch discards the upload's own result), the Connected
message, the TLS handshake, the Negotiated message, byte forwarding, the
CleaningUp message, and only then the best-effort end-package upload (its
result ignored) before the forwarding result is returned. -/
def Shell.invoke (s : Shell) (env : Env) : InvokeResult × List Effect :=
  let _port := s.port.getD (choose_port env.rng)
  match s.camera_url.host with
  | none => (.panics "URL must have a host component", [])
  | some hostname =>
    match env.resolveResult with
    | .error e =>
      (.fails (.HostnameResolutionError hostname e), [.resolve])
    | .ok [] =>
      (.panics "name resolution produced no addresses", [.resolve])
    | .ok (shell_addr :: _) =>
      match env.applicationsResult with
      | .error e => (.fails (.VapixError e), [.resolve, .vapixApplications])
      | .ok none => (.fails .DeviceNotSupported, [.resolve, .vapixApplications])
      | .ok (some _) =>
        match env.outStartResult with
        | .error te =>
          (.fails (.TerminalError te), [.resolve, .vapixApplications, .outStart])
        | .ok _ =>
          match ensure_closed env.probeConnect with
          | .error e =>
            (.fails (.ProbeError shell_addr e),
              [.resolve, .vapixApplications, .outStart, .probe])
          | .ok _ =>
            let tr := [Effect.resolve, .vapixApplications, .outStart, .probe,
              .uploadStart, .dialStart]
            match env.raceOutcome with
            | .dialErr e => (.fails (.ShellConnectionError e), tr)
            | .uploadSettled _ => (.fails .ShellFailedToStart, tr)
            | .dialOk =>
              match env.outConnectedResult with
              | .error te => (.fails (.TerminalError te), tr ++ [.outConnected])
              | .ok _ =>
                match env.tlsResult with
                | .error detail =>
                  (.fails (.TlsHandshakeFailed detail),
                    tr ++ [.outConnected, .tlsHandshake])
                | .ok _ =>
                  match env.outNegotiatedResult with
                  | .error te =>
                    (.fails (.TerminalError te),
                      tr ++ [.outConnected, .tlsHandshake, .outNegotiated])
                  | .ok _ =>
                    let result : Except Error Unit :=
                      match env.fwdOutcome with
                      | .clean => .ok ()
                      | .inputFailed e => .error (.InputError e)
                      | .outputFailed e => .error (.OutputError e)
                      | .connClosed e => .error (.ConnectionClosed e)
                    let tr := tr ++ [Effect.outConnected, .tlsHandshake,
                      .outNegotiated, .forward]
                    match env.outCleaningUpResult with
                    | .error te =>
                      (.fails (.TerminalError te), tr ++ [.outCleaningUp])
                    | .ok _ =>
                      let tr := tr ++ [Effect.outCleaningUp, .uploadEnd]
                      match result with
                      | .ok _ => (.succeeds, tr)
                      | .error e => (.fails e, tr)

/-- A concrete argument vector: `axctl shell -p 40000 http://camera/`. -/
def shellArgs : Shell :=
  { camera_url := { host := some "camera" }, port := some 40000 }

/-- A concrete environment for a run in which every external effect succeeds:
one resolved address, a supported device, a pre-probe that gets connection
refused, a dial that wins the race, a clean handshake and a clean forwarding
stage. -/
def envBase : Env :=
  { rng := 0
    resolveResult := .ok [{ ip := 1, port := 40000 }]
    applicationsResult := .ok (some ())
    outStartResult := .ok ()
    probeConnect := some (.error { kind := .connectionRefused, msg := "Connection refused" })
    raceOutcome := .dialOk
    outConnectedResult := .ok ()
    tlsResult := .ok ()
    outNegotiatedResult := .ok ()
    fwdOutcome := .clean
    outCleaningUpResult := .ok ()
    endUploadResult := .ok () }

/-- `env` adjusted so that the run reaches state Probed: resolution yields
`a :: rs`, the device is supported, the Start message prints, and the
pre-probe connect ends in connection refused. -/
def envProbed (env : Env) (a : SockAddr) (rs : List SockAddr) (m : String) : Env :=
  { env with
    resolveResult := .ok (a :: rs)
    applicationsResult := .ok (some ())
    outStartResult := .ok ()
    probeConnect := some (.error { kind := .connectionRefused, msg := m }) }

/-- The effect trace at the moment the upload race resolves. -/
def raceTrace : List Effect :=
  [.resolve, .vapixApplications, .outStart, .probe, .uploadStart, .dialStart]

/-- The effect trace of a run that reaches teardown. -/
def fullTrace : List Effect :=
  raceTrace ++ [.outConnected, .tlsHandshake, .outNegotiated, .forward]
    ++ [.outCleaningUp, .uploadEnd]

end Axctl

/-- C7 — `tar::build` emits one regular-file tar entry per input, in input
order, carrying the given path and mode, `uid = 0`, `gid = 0`, modification
time equal to the wall-clock seconds since the Unix epoch (`0` when the clock
is before the epoch), a checksum that is the byte sum of its own header with
the checksum field blanked, and no directory entries. -/
theorem Axctl.tar_build_entries (now : Option Nat) (files : List Axctl.Tar.File) :
    List.Forall₂
      (fun (f : Axctl.Tar.File) (e : Axctl.Tar.Entry) =>
        e.path = f.path ∧ e.mode = f.mode ∧ e.uid = 0 ∧ e.gid = 0 ∧
        e.mtime = now.getD 0 ∧ e.size = f.bytes.length ∧ e.bytes = f.bytes ∧
        e.typ = .regular ∧ e.typ ≠ .directory ∧
        e.cksum = Axctl.Tar.cksumOf e)
      files (Axctl.Tar.build now files) := by
  induction files with
  | nil => exact List.Forall₂.nil
  | cons f fs ih =>
    refine List.Forall₂.cons ?_ ih
    exact ⟨rfl, rfl, rfl, rfl, rfl, rfl, rfl, rfl, by simp [Axctl.Tar.mkEntry], rfl⟩

theorem Axctl.strBytes_append (a b : String) :
    Axctl.strBytes (a ++ b) = Axctl.strBytes a ++ Axctl.strBytes b := by
  simp [Axctl.strBytes, String.data_append]

/-- C5 — for every session id, port and server endpoint, the start package
archive has exactly five entries, in order: `package.conf` (0644),
`run.<session-id>.sh` (0755), `stunnel.conf` (0644), `server.pem` (0644) and
`client_ca.pem` (0644); `server.pem` is the server private key PEM followed by
the server certificate PEM, and `client_ca.pem` is the client CA certificate
PEM. -/
theorem Axctl.start_package_entries (now : Option Nat) (id : String) (port : Nat)
    (server : Axctl.MutualTls.Endpoint) :
    ((Axctl.StartPackage.new id port server).into_eap now).map
        (fun e => (e.path, e.mode))
      = [("package.conf", 0o644), ("run." ++ id ++ ".sh", 0o755),
         ("stunnel.conf", 0o644), ("server.pem", 0o644),
         ("client_ca.pem", 0o644)] ∧
    (((Axctl.StartPackage.new id port server).into_eap now).map
        (fun e => e.bytes))[3]?
      = some (server.key.private_key_to_pem ++ server.certificate.to_pem) ∧
    (((Axctl.StartPackage.new id port server).into_eap now).map
        (fun e => e.bytes))[4]?
      = some server.peer_certificate_authority.to_pem := by
  exact ⟨rfl, rfl, rfl⟩

/-- C6 — `Pair::new(label)` produces a cyclic trust relation: the server
endpoint's peer CA is the client-side CA's certificate and the client
endpoint's peer CA is the server-side CA's certificate; each leaf is signed by
its own side's CA (signing key and issuer name); and the subject common names
are `<label> server CA`, `<label> client CA`, `<label> server` and
`<label> client`. -/
theorem Axctl.pair_cyclic_trust (label : String) (now₁ now₂ d₁ d₂ d₃ d₄ : Nat) :
    (Axctl.MutualTls.Pair.new label now₁ now₂ d₁ d₂ d₃ d₄).server.peer_certificate_authority
        = (Axctl.MutualTls.CA.new (label ++ " client CA") now₂ d₂).certificate ∧
    (Axctl.MutualTls.Pair.new label now₁ now₂ d₁ d₂ d₃ d₄).client.peer_certificate_authority
        = (Axctl.MutualTls.CA.new (label ++ " server CA") now₁ d₁).certificate ∧
    (Axctl.MutualTls.Pair.new label now₁ now₂ d₁ d₂ d₃ d₄).server.certificate.signerKey
        = (Axctl.MutualTls.CA.new (label ++ " server CA") now₁ d₁).key ∧
    (Axctl.MutualTls.Pair.new label now₁ now₂ d₁ d₂ d₃ d₄).server.certificate.issuerCN
        = label ++ " server CA" ∧
    (Axctl.MutualTls.Pair.new label now₁ now₂ d₁ d₂ d₃ d₄).client.certificate.signerKey
        = (Axctl.MutualTls.CA.new (label ++ " client CA") now₂ d₂).key ∧
    (Axctl.MutualTls.Pair.new label now₁ now₂ d₁ d₂ d₃ d₄).client.certificate.issuerCN
        = label ++ " client CA" ∧
    (Axctl.MutualTls.CA.new (label ++ " server CA") now₁ d₁).certificate.subjectCN
        = label ++ " server CA" ∧
    (Axctl.MutualTls.CA.new (label ++ " client CA") now₂ d₂).certificate.subjectCN
        = label ++ " client CA" ∧
    (Axctl.MutualTls.Pair.new label now₁ now₂ d₁ d₂ d₃ d₄).server.certificate.subjectCN
        = label ++ " server" ∧
    (Axctl.MutualTls.Pair.new label now₁ now₂ d₁ d₂ d₃ d₄).client.certificate.subjectCN
        = label ++ " client" := by
  exact ⟨rfl, rfl, rfl, rfl, rfl, rfl, rfl, rfl, rfl, rfl⟩

/-- C10 — `Shell::invoke` is only defined when the camera URL has a host
component: with an absent host the run panics (aborting the process) before
any external effect, rather than returning one of the declared `Error`
variants. -/
theorem Axctl.missing_host_panics (p : Option Nat) (env : Axctl.Env) :
    Axctl.Shell.invoke { camera_url := { host := none }, port := p } env
      = (.panics "URL must have a host component", []) := by
  rfl

/-- C2 counterexample — with a resolution that succeeds but yields zero
addresses, `Shell::invoke` panics (`Option::expect` on `.next()`) instead of
returning a `HostnameResolution` error. -/
theorem Axctl.zero_addresses_panics_cex :
    Axctl.Shell.invoke Axctl.shellArgs
        { Axctl.envBase with resolveResult := .ok [] }
      = (.panics "name resolution produced no addresses", [.resolve]) := by
  rfl

/-- C2 amended — when `to_socket_addrs` returns an error, the run fails with
`HostnameResolutionError` before any further side effect; when it succeeds
with zero addresses the run panics; when it yields one or more addresses the
first address is used (here visible as the address reported by a subsequent
probe failure). -/
theorem Axctl.resolution_behavior (env : Axctl.Env) (p : Option Nat)
    (h : String) (e : Axctl.IoError) (a : Axctl.SockAddr)
    (rs : List Axctl.SockAddr) :
    (Axctl.Shell.invoke { camera_url := { host := some h }, port := p }
        { env with resolveResult := .error e }
      = (.fails (.HostnameResolutionError h e), [.resolve])) ∧
    (Axctl.Shell.invoke { camera_url := { host := some h }, port := p }
        { env with resolveResult := .ok [] }
      = (.panics "name resolution produced no addresses", [.resolve])) ∧
    (Axctl.Shell.invoke { camera_url := { host := some h }, port := p }
        { env with
          resolveResult := .ok (a :: rs)
          applicationsResult := .ok (some ())
          outStartResult := .ok ()
          probeConnect := some (.ok ()) }
      = (.fails (.ProbeError a
            { kind := .alreadyExists, msg := "destination port is already open" }),
         [.resolve, .vapixApplications, .outStart, .probe])) := by
  exact ⟨rfl, rfl, rfl⟩

/-- C3 counterexample — when the start-package upload inside the upload race
returns an API error, `Shell::invoke` reports `ShellFailedToStart`, not that
API error: the settled-upload branch of the biased select discards the
upload's result. -/
theorem Axctl.upload_api_error_discarded_cex :
    (Axctl.Shell.invoke Axctl.shellArgs
        { Axctl.envBase with raceOutcome := .uploadSettled (.error "api failure") }).1
      = .fails .ShellFailedToStart ∧
    (Axctl.Shell.invoke Axctl.shellArgs
        { Axctl.envBase with raceOutcome := .uploadSettled (.error "api failure") }).1
      ≠ .fails (.VapixError "api failure") := by
  exact ⟨rfl, by decide⟩

/-- C3 amended — an API failure of the `applications()` call is surfaced
as-is as `VapixError`; but an API error returned by the start-package upload
inside the upload race is discarded (the run reports `ShellFailedToStart`),
and the end-package upload's result never influences the run's outcome. -/
theorem Axctl.api_error_surfacing (env : Axctl.Env) (p : Option Nat)
    (h m : String) (e : String) (a : Axctl.SockAddr)
    (rs : List Axctl.SockAddr) (r₁ r₂ : Except String Unit)
    (fwd : Axctl.FwdOutcome) :
    (Axctl.Shell.invoke { camera_url := { host := some h }, port := p }
        { env with resolveResult := .ok (a :: rs), applicationsResult := .error e }
      = (.fails (.VapixError e), [.resolve, .vapixApplications])) ∧
    (Axctl.Shell.invoke { camera_url := { host := some h }, port := p }
        { Axctl.envProbed env a rs m with raceOutcome := .uploadSettled (.error e) }
      = (.fails .ShellFailedToStart, Axctl.raceTrace)) ∧
    (Axctl.Shell.invoke Axctl.shellArgs
        { Axctl.envBase with fwdOutcome := fwd, endUploadResult := r₁ }
      = Axctl.Shell.invoke Axctl.shellArgs
        { Axctl.envBase with fwdOutcome := fwd, endUploadResult := r₂ }) := by
  refine ⟨rfl, rfl, ?_⟩
  cases fwd <;> rfl

/-- C4 — the 2-second pre-probe has exactly four outcomes: a connect ending
in connection refused succeeds (the session advances past Probed into the
upload race); a connect that succeeds fails with `AlreadyExists`; a connect
failing with any other error fails with that error; a timer firing first
fails with `TimedOut`; and within `Shell::invoke` each failure is wrapped as
`ProbeError` at the probed address. -/
theorem Axctl.preprobe_outcomes :
    (∀ m : String,
      Axctl.ensure_closed (some (.error { kind := .connectionRefused, msg := m }))
        = .ok ()) ∧
    (Axctl.ensure_closed (some (.ok ()))
      = .error { kind := .alreadyExists, msg := "destination port is already open" }) ∧
    (∀ e : Axctl.IoError, e.kind ≠ .connectionRefused →
      Axctl.ensure_closed (some (.error e)) = .error e) ∧
    (Axctl.ensure_closed none
      = .error { kind := .timedOut,
                 msg := "connection timed out (are you behind a firewall?)" }) ∧
    (∀ (env : Axctl.Env) (p : Option Nat) (h m : String) (a : Axctl.SockAddr)
        (rs : List Axctl.SockAddr) (e : Axctl.IoError),
      (Axctl.Shell.invoke { camera_url := { host := some h }, port := p }
          { Axctl.envProbed env a rs m with raceOutcome := .dialErr e }
        = (.fails (.ShellConnectionError e), Axctl.raceTrace)) ∧
      (Axctl.Shell.invoke { camera_url := { host := some h }, port := p }
          { env with
            resolveResult := .ok (a :: rs)
            applicationsResult := .ok (some ())
            outStartResult := .ok ()
            probeConnect := none }
        = (.fails (.ProbeError a
              { kind := .timedOut,
                msg := "connection timed out (are you behind a firewall?)" }),
           [.resolve, .vapixApplications, .outStart, .probe])) ∧
      (e.kind ≠ .connectionRefused →
        Axctl.Shell.invoke { camera_url := { host := some h }, port := p }
          { env with
            resolveResult := .ok (a :: rs)
            applicationsResult := .ok (some ())
            outStartResult := .ok ()
            probeConnect := some (.error e) }
          = (.fails (.ProbeError a e),
             [.resolve, .vapixApplications, .outStart, .probe]))) := by
  refine ⟨fun m => rfl, rfl, ?_, rfl, ?_⟩
  · intro e he
    unfold Axctl.ensure_closed
    simp [he]
  · intro env p h m a rs e
    refine ⟨rfl, rfl, ?_⟩
    · intro he
      unfold Axctl.Shell.invoke Axctl.ensure_closed
      simp [he]

/-- C4 witness — the general-error probe case at a concrete error. -/
theorem Axctl.preprobe_outcomes_witness :
    Axctl.ensure_closed (some (.error { kind := .other 113, msg := "No route to host" }))
      = .error { kind := .other 113, msg := "No route to host" } :=
  Axctl.preprobe_outcomes.2.2.1
    { kind := .other 113, msg := "No route to host" } (by decide)

/-- C8 counterexample — port 60999 is not a possible outcome of
`choose_port`: `gen_range(32768, 60999)` draws from the half-open range, so
the upper endpoint is never chosen. -/
theorem Axctl.port_60999_unreachable_cex :
    60999 ∉ Set.range Axctl.choose_port := by
  rintro ⟨r, hr⟩
  unfold Axctl.choose_port at hr
  omega

/-- C8 amended — when the caller does not specify a port, the chosen port is
drawn uniformly from the half-open range `32768..60999`: every chosen port
lies in `32768..=60998`, and every port of `32768..=60998` (both endpoints
included) is a possible outcome; `60999` itself is never chosen. -/
theorem Axctl.choose_port_range :
    (∀ r, 32768 ≤ Axctl.choose_port r ∧ Axctl.choose_port r ≤ 60998) ∧
    (∀ p, 32768 ≤ p → p ≤ 60998 → ∃ r, Axctl.choose_port r = p) := by
  constructor
  · intro r
    unfold Axctl.choose_port
    omega
  · intro p h1 h2
    refine ⟨p - 32768, ?_⟩
    unfold Axctl.choose_port
    omega

/-- C8 witness — the bounds at a concrete draw and attainability of both
endpoints of the amended range. -/
theorem Axctl.choose_port_range_witness :
    (32768 ≤ Axctl.choose_port 7 ∧ Axctl.choose_port 7 ≤ 60998) ∧
    (∃ r, Axctl.choose_port r = 32768) ∧ (∃ r, Axctl.choose_port r = 60998) :=
  ⟨Axctl.choose_port_range.1 7,
   Axctl.choose_port_range.2 32768 (by norm_num) (by norm_num),
   Axctl.choose_port_range.2 60998 (by norm_num) (by norm_num)⟩

/-- C1 counterexample — a session that has reached Probed and whose upload
settles without a connection exits with `ShellFailedToStart` without building
or uploading the end package: the effect trace ends at the race, with no
`uploadEnd` effect. -/
theorem Axctl.race_error_skips_teardown_cex :
    Axctl.Shell.invoke Axctl.shellArgs
        { Axctl.envBase with raceOutcome := .uploadSettled (.ok ()) }
      = (.fails .ShellFailedToStart, Axctl.raceTrace) ∧
    Axctl.Effect.uploadEnd ∉ Axctl.raceTrace := by
  exact ⟨rfl, by decide⟩

/-- C1 amended — after Probed, error exits of the upload race
(`ShellFailedToStart`, `ShellConnectionError`), of the TLS handshake
(`TlsHandshakeFailed`), and of terminal output return immediately without
attempting the end-package upload; only once the forwarding stage ends and
the CleaningUp message prints is the end package uploaded, after which the
forwarding result (clean or error) is returned. -/
theorem Axctl.teardown_only_after_forwarding (env : Axctl.Env) (p : Option Nat)
    (h m detail te : String) (a : Axctl.SockAddr) (rs : List Axctl.SockAddr)
    (r : Except String Unit) (e ce : Axctl.IoError) :
    (Axctl.Shell.invoke { camera_url := { host := some h }, port := p }
        { Axctl.envProbed env a rs m with raceOutcome := .uploadSettled r }
      = (.fails .ShellFailedToStart, Axctl.raceTrace)) ∧
    (Axctl.Shell.invoke { camera_url := { host := some h }, port := p }
        { Axctl.envProbed env a rs m with raceOutcome := .dialErr e }
      = (.fails (.ShellConnectionError e), Axctl.raceTrace)) ∧
    (Axctl.Shell.invoke { camera_url := { host := some h }, port := p }
        { Axctl.envProbed env a rs m with
          raceOutcome := .dialOk
          outConnectedResult := .ok ()
          tlsResult := .error detail }
      = (.fails (.TlsHandshakeFailed detail),
         Axctl.raceTrace ++ [.outConnected, .tlsHandshake])) ∧
    Axctl.Effect.uploadEnd ∉ Axctl.raceTrace ++ [Axctl.Effect.outConnected, .tlsHandshake] ∧
    (Axctl.Shell.invoke { camera_url := { host := some h }, port := p }
        { Axctl.envProbed env a rs m with
          raceOutcome := .dialOk
          outConnectedResult := .ok ()
          tlsResult := .ok ()
          outNegotiatedResult := .ok ()
          fwdOutcome := .connClosed ce
          outCleaningUpResult := .error te }
      = (.fails (.TerminalError te),
         Axctl.raceTrace ++ [.outConnected, .tlsHandshake, .outNegotiated,
           .forward, .outCleaningUp])) ∧
    Axctl.Effect.uploadEnd ∉ Axctl.raceTrace ++ [Axctl.Effect.outConnected,
      .tlsHandshake, .outNegotiated, .forward, .outCleaningUp] ∧
    (Axctl.Shell.invoke { camera_url := { host := some h }, port := p }
        { Axctl.envProbed env a rs m with
          raceOutcome := .dialOk
          outConnectedResult := .ok ()
          tlsResult := .ok ()
          outNegotiatedResult := .ok ()
          fwdOutcome := .connClosed ce
          outCleaningUpResult := .ok () }
      = (.fails (.ConnectionClosed ce), Axctl.fullTrace)) ∧
    (Axctl.Shell.invoke { camera_url := { host := some h }, port := p }
        { Axctl.envProbed env a rs m with
          raceOutcome := .dialOk
          outConnectedResult := .ok ()
          tlsResult := .ok ()
          outNegotiatedResult := .ok ()
          fwdOutcome := .clean
          outCleaningUpResult := .ok () }
      = (.succeeds, Axctl.fullTrace)) ∧
    Axctl.Effect.uploadEnd ∈ Axctl.fullTrace := by
  exact ⟨rfl, rfl, rfl, by decide, rfl, by decide, rfl, rfl, by decide⟩

/-- C9 — for every session id, the start package and the end package
reference the identical working-directory path (`/tmp/trunnion-shell.<id>`)
and the identical logger tag (`trunnion shell <id>`): the two `workdir`
methods agree, the logger invocation with the shared tag occurs in both
`package.conf` scripts, and the shared working-directory assignment
(`workdir=/tmp/trunnion-shell.<id>`) occurs both in the start package's run
script and in the end package's kill-and-remove script. -/
theorem Axctl.packages_share_workdir_and_tag (id : String) (port : Nat)
    (server : Axctl.MutualTls.Endpoint) :
    (Axctl.StartPackage.new id port server).workdir = (Axctl.EndPackage.new id).workdir ∧
    (∃ s t, s ++ Axctl.strBytes (Axctl.logger_invocation id) ++ t
        = (Axctl.StartPackage.new id port server).package_dot_conf) ∧
    (∃ s t, s ++ Axctl.strBytes (Axctl.logger_invocation id) ++ t
        = (Axctl.EndPackage.new id).package_dot_conf) ∧
    (∃ s t, s ++ Axctl.strBytes ("workdir=" ++ (Axctl.StartPackage.new id port server).workdir) ++ t
        = (Axctl.StartPackage.new id port server).run_sh) ∧
    (∃ s t, s ++ Axctl.strBytes ("workdir=" ++ (Axctl.EndPackage.new id).workdir) ++ t
        = (Axctl.EndPackage.new id).package_dot_conf) := by
  refine ⟨rfl, ?_, ?_, ?_, ?_⟩
  · refine ⟨Axctl.strBytes "\necho 'starting' | ",
      Axctl.strBytes ("\nrun=`find /tmp/ -name " ++ ("run." ++ id ++ ".sh")
        ++ " | head -n1`\nif [ -z \"$run\" ]\nthen\n    echo 'fatal: unable to identify unpack directory' | "
        ++ Axctl.logger_invocation id
        ++ "\nelse\n    (\n        exec $run </dev/null 2>&1 \n    ) &\n    echo \"$run is running as PID $!\" | "
        ++ Axctl.logger_invocation id
        ++ "\nfi\nsleep 3\n\nfalse\n"), ?_⟩
    simp only [Axctl.StartPackage.package_dot_conf, Axctl.StartPackage.package_dot_conf_str,
      Axctl.StartPackage.run_sh_filename, Axctl.StartPackage.new,
      Axctl.strBytes_append, List.append_assoc]
  · refine ⟨Axctl.strBytes ("(\n    " ++ ("workdir=" ++ ("/tmp/trunnion-shell." ++ id))
        ++ "\n    [ -f $workdir/openssl.pid ] && kill `cat $workdir/openssl.pid`\n    [ -f $workdir/stunnel.pid ] && kill `cat $workdir/stunnel.pid`\n    [ -d $workdir ] && rm -r $workdir\n    echo \"terminated\"\n) | "),
      Axctl.strBytes " &\n\nfalse\n", ?_⟩
    simp only [Axctl.EndPackage.package_dot_conf, Axctl.EndPackage.package_dot_conf_str,
      Axctl.EndPackage.workdir, Axctl.EndPackage.new,
      Axctl.strBytes_append, List.append_assoc]
  · refine ⟨Axctl.strBytes ("#!/bin/sh\n# trunnion shell invocation\nid=" ++ id ++ "\n"),
      Axctl.strBytes ("\nssl_port=" ++ toString port
        ++ "\n\ncd `dirname $0`\n\nmkdir $workdir\nmv server.pem client_ca.pem stunnel.conf $workdir/\n\nexport HOME=/root\nexport PATH=$PATH:/usr/sbin\nexport PS1=`hostname`'# '\ncd\n\nif command -v stunnel >/dev/null\nthen\n  echo 'starting sh-over-SSL via `stunnel` on port '$ssl_port\n  stunnel $workdir/stunnel.conf\n\nelif command -v openssl >/dev/null 2>&1\nthen\n  echo 'starting sh-over-SSL via `openssl` on port '$ssl_port\n\n  mkfifo $workdir/c2s\n  sh -i <$workdir/c2s 2>&1 | \\\n      openssl s_server -quiet \\\n      -port $ssl_port \\\n      -cert $workdir/server.pem \\\n      -key $workdir/server.pem \\\n      -CAfile $workdir/client_ca.pem \\\n      -Verify 1 \\\n      -verify_return_error \\\n      >$workdir/c2s &\nelse\n  echo 'fatal: `stunnel` and `openssl` are not available'\nfi\n\nsleep 10\nrm -r $workdir\n\nfalse\n"), ?_⟩
    simp only [Axctl.StartPackage.run_sh, Axctl.StartPackage.run_sh_str,
      Axctl.StartPackage.workdir, Axctl.StartPackage.new,
      Axctl.strBytes_append, List.append_assoc]
  · refine ⟨Axctl.strBytes "(\n    ",
      Axctl.strBytes ("\n    [ -f $workdir/openssl.pid ] && kill `cat $workdir/openssl.pid`\n    [ -f $workdir/stunnel.pid ] && kill `cat $workdir/stunnel.pid`\n    [ -d $workdir ] && rm -r $workdir\n    echo \"terminated\"\n) | "
        ++ Axctl.logger_invocation id ++ " &\n\nfalse\n"), ?_⟩
    simp only [Axctl.EndPackage.package_dot_conf, Axctl.EndPackage.package_dot_conf_str,
      Axctl.EndPackage.workdir, Axctl.EndPackage.new,
      Axctl.strBytes_append, List.append_assoc]
